import Mathlib

/-!
Verification of the spatial annotation subsystem of the Augmented-tour
repository: the room-component store, the navigation-marker store, the
render-time sphere normalization, the static navigation table merge, the
API-driven card's fetch scheduling and staleness flag, and the ZInD
metadata parser.  Every definition is a shallow embedding of the
corresponding TypeScript source; JS objects keyed by strings are modelled
as insertion-ordered association lists, which matches JS enumeration
order for non-numeric string keys.
-/

/-! ## 3D vectors and render-time normalization (PanoramaViewer.tsx) -/

/-- A 3D coordinate as used by the renderer (JS numbers modelled as reals). -/
structure Vec3 where
  x : ℝ
  y : ℝ
  z : ℝ

/-- The zero vector (the sphere center, an invalid stored position). -/
def zero3 : Vec3 := ⟨0, 0, 0⟩

/-- Scalar multiple of a vector. -/
def smul3 (a : ℝ) (v : Vec3) : Vec3 := ⟨a * v.x, a * v.y, a * v.z⟩

/-- Euclidean magnitude, exactly as computed in PanoramaViewer.tsx:
Math.sqrt(x*x + y*y + z*z). -/
noncomputable def norm3 (v : Vec3) : ℝ := Real.sqrt (v.x * v.x + v.y * v.y + v.z * v.z)

/-- The render radius at which markers and components are drawn (the code
places them at nx*48, ny*48, nz*48 inside a sphere of radius 50). -/
def renderRadius : ℝ := 48

/-- Render-time normalization from PanoramaViewer.tsx: nx = x/length, then
marker position is (nx*r, ny*r, nz*r).  The stored vector is read, never
written; the result is a fresh transient value. -/
noncomputable def normalizeToRenderRadius (v : Vec3) (r : ℝ) : Vec3 :=
  let length := norm3 v
  ⟨v.x / length * r, v.y / length * r, v.z / length * r⟩

/-! ## Data model (types/roomComponents.ts, types/navigationMarkers.ts) -/

/-- Closed set of component variants. -/
inductive ComponentType where
  | infobox
  | status
  | image
  | instruction
  | alert
  | api
deriving DecidableEq, Repr

/-- Status values for the status variant. -/
inductive StatusType where
  | working
  | warning
  | error
deriving DecidableEq, Repr

/-- Severity values for the alert variant. -/
inductive AlertSeverity where
  | warning
  | danger
deriving DecidableEq, Repr

/-- ApiConfig from types/roomComponents.ts: url, renderAs, refreshInterval
in seconds (0 = fetch on room entry only). -/
structure ApiConfig where
  url : String
  renderAs : ComponentType
  refreshInterval : ℕ
deriving DecidableEq, Repr

/-- Stored pick-space position: a triple of JS numbers.  The storage layer
never interprets the coordinates, so rationals suffice here and keep
equality decidable for concrete witnesses. -/
abbrev Position := ℚ × ℚ × ℚ

/-- ComponentData from types/roomComponents.ts: all fields optional. -/
structure ComponentData where
  title : Option String := none
  text : Option String := none
  icon : Option String := none
  color : Option String := none
  status : Option StatusType := none
  imageUrl : Option String := none
  caption : Option String := none
  steps : Option (List String) := none
  severity : Option AlertSeverity := none
  message : Option String := none
  _api : Option ApiConfig := none
deriving DecidableEq, Repr

/-- RoomComponent from types/roomComponents.ts. -/
structure RoomComponent where
  id : String
  roomLabel : String
  type : ComponentType
  position : Position
  data : ComponentData
  createdAt : ℕ
deriving DecidableEq, Repr

/-- NavigationMarker from types/navigationMarkers.ts. -/
structure NavigationMarker where
  id : String
  fromRoom : String
  toRoom : String
  position : Position
  createdAt : ℕ
deriving DecidableEq, Repr

/-! ## Generic string-keyed buckets (the JS object storage shape) -/

/-- A JS object keyed by strings, as an insertion-ordered association list. -/
abbrev Buckets (α : Type) := List (String × α)

/-- Property read obj[key]: first (unique, in a real JS object) binding. -/
def lookupBucket {α : Type} : Buckets α → String → Option α
  | [], _ => none
  | (k, v) :: rest, key => if k = key then some v else lookupBucket rest key

/-- Property write obj[key] = v: overwrites in place if the key exists
(keeping enumeration order), otherwise appends the new key last. -/
def setBucket {α : Type} : Buckets α → String → α → Buckets α
  | [], key, v => [(key, v)]
  | (k, w) :: rest, key, v =>
      if k = key then (key, v) :: rest else (k, w) :: setBucket rest key v

/-! ## Annotation store (utils/componentStorage.ts) -/

/-- Parsed contents of the roomComponents storage key. -/
abbrev RoomComponentsStorage := Buckets (List RoomComponent)

/-- Lowercase a label character by character: the effect of the JS
toLowerCase call on the ASCII room labels this program uses. -/
def lowerChars (l : List Char) : List Char := l.map Char.toLower

/-- Drop leading whitespace characters. -/
def dropLeadingWs : List Char → List Char
  | [] => []
  | c :: rest => if c.isWhitespace then dropLeadingWs rest else c :: rest

/-- The JS trim call: remove leading and trailing whitespace. -/
def trimChars (l : List Char) : List Char :=
  dropLeadingWs ((dropLeadingWs l.reverse).reverse)

/-- Room label normalization applied by componentStorage.ts:
label.toLowerCase().trim(), modelled on the character sequence so that it
is structurally recursive and kernel-evaluable. -/
def normalizeLabel (s : String) : String := String.mk (trimChars (lowerChars s.data))

/-- getComponentsForRoom: allComponents[label.toLowerCase().trim()] || []. -/
def getComponentsForRoom (roomLabel : String) (s : RoomComponentsStorage) :
    List RoomComponent :=
  (lookupBucket s (normalizeLabel roomLabel)).getD []

/-- addComponent: normalize the component's own roomLabel, create the bucket
if absent, push the component at the end. -/
def addComponent (c : RoomComponent) (s : RoomComponentsStorage) :
    RoomComponentsStorage :=
  let key := normalizeLabel c.roomLabel
  setBucket s key (((lookupBucket s key).getD []) ++ [c])

/-- The create operation as performed by VirtualTour.tsx handleSaveComponent:
the caller-supplied fields plus a freshly assigned id and createdAt, pushed
through addComponent. -/
def createComponent (newId : String) (now : ℕ) (roomLabel : String)
    (ty : ComponentType) (pos : Position) (d : ComponentData)
    (s : RoomComponentsStorage) : RoomComponentsStorage :=
  addComponent ⟨newId, roomLabel, ty, pos, d, now⟩ s

/-- The partial-update record accepted by updateComponent: every field of
RoomComponent made optional. -/
structure ComponentUpdates where
  id : Option String := none
  roomLabel : Option String := none
  type : Option ComponentType := none
  position : Option Position := none
  data : Option ComponentData := none
  createdAt : Option ℕ := none
deriving DecidableEq, Repr

/-- The JS spread update: fields present in the update win, the rest are
kept from the existing component. -/
def applyUpdates (c : RoomComponent) (u : ComponentUpdates) : RoomComponent where
  id := u.id.getD c.id
  roomLabel := u.roomLabel.getD c.roomLabel
  type := u.type.getD c.type
  position := u.position.getD c.position
  data := u.data.getD c.data
  createdAt := u.createdAt.getD c.createdAt

/-- Replace the first component with the matching id inside one bucket
(findIndex + index assignment in the source). -/
def updateBucket (cid : String) (u : ComponentUpdates) :
    List RoomComponent → List RoomComponent
  | [] => []
  | c :: rest =>
      if c.id = cid then applyUpdates c u :: rest else c :: updateBucket cid u rest

/-- updateComponent: scan buckets in enumeration order; in the first bucket
whose findIndex succeeds, replace that entry and stop.  No match anywhere
leaves the storage unchanged. -/
def updateComponent (cid : String) (u : ComponentUpdates) :
    RoomComponentsStorage → RoomComponentsStorage
  | [] => []
  | (k, v) :: rest =>
      if v.any (fun c => c.id == cid) then (k, updateBucket cid u v) :: rest
      else (k, v) :: updateComponent cid u rest

/-- deleteComponent: filter the id out of every bucket (empty buckets are
kept, matching the source). -/
def deleteComponent (cid : String) (s : RoomComponentsStorage) :
    RoomComponentsStorage :=
  s.map (fun b => (b.1, b.2.filter (fun c => c.id != cid)))

/-- A lookup of a component by id, scanning buckets in the same enumeration
order updateComponent uses (the store itself partitions by room; ids are
globally unique by construction). -/
def findComponentById (cid : String) : RoomComponentsStorage → Option RoomComponent
  | [] => none
  | (_, v) :: rest =>
      match v.find? (fun c => c.id == cid) with
      | some c => some c
      | none => findComponentById cid rest

/-! ## Navigation-marker store (utils/navigationMarkerStorage.ts) -/

/-- Parsed contents of the navigationMarkers storage key. -/
abbrev NavigationMarkersStorage := Buckets (List NavigationMarker)

/-- getMarkersForRoom: allMarkers[fromRoom] || [] — note the raw, not
normalized, key. -/
def getMarkersForRoom (fromRoom : String) (s : NavigationMarkersStorage) :
    List NavigationMarker :=
  (lookupBucket s fromRoom).getD []

/-- addNavigationMarker: bucket keyed by marker.fromRoom verbatim, push at
the end. -/
def addNavigationMarker (m : NavigationMarker) (s : NavigationMarkersStorage) :
    NavigationMarkersStorage :=
  setBucket s m.fromRoom (((lookupBucket s m.fromRoom).getD []) ++ [m])

/-! ## Static navigation table (constants/roomMarkers.ts) -/

/-- A render destination: destination room plus pick-space coordinates. -/
abbrev Destination := String × Position

/-- ROOM_MARKERS from constants/roomMarkers.ts, in declaration order (JS
object enumeration order for these string keys). -/
def ROOM_MARKERS : Buckets (List Destination) :=
  [ ("living room",
      [ ("dining room", (-4198/100, -1153/100, 2446/100)),
        ("hallway", (-3115/100, -727/100, -3841/100)) ]),
    ("dining room",
      [ ("kitchen", (4976/100, -404/100, -132/100)),
        ("bonus room", (-3791/100, -538/100, 3209/100)),
        ("living room", (3071/100, -781/100, 3862/100)) ]),
    ("hallway",
      [ ("bathroom", (252/100, 276/100, -4979/100)),
        ("kitchen", (-4651/100, -308/100, -1792/100)),
        ("bedroom", (-565/100, -973/100, 4868/100)),
        ("closet", (4555/100, -319/100, -2024/100)) ]),
    ("bathroom",
      [ ("hallway", (-2741/100, 117/100, -4176/100)) ]),
    ("kitchen",
      [ ("dining room", (4964/100, -545/100, -111/100)),
        ("hallway", (110/100, 186/100, -4990/100)) ]),
    ("bonus room",
      [ ("dining room", (-81/100, -917/100, 4910/100)),
        ("laundry", (-4180/100, 34/100, 2739/100)) ]),
    ("laundry",
      [ ("bonus room", (-1465/100, -944/100, 4684/100)),
        ("garage", (1811/100, -390/100, -4638/100)),
        ("bathroom", (-4317/100, -891/100, -2353/100)) ]),
    ("closet",
      [ ("hallway", (-4958/100, -560/100, 185/100)) ]) ]

/-- getRoomDestinations: normalize the label, look it up in the table,
return the entries in declaration order (empty when absent). -/
def getRoomDestinations (currentRoom : String) : List Destination :=
  (lookupBucket ROOM_MARKERS (normalizeLabel currentRoom)).getD []

/-- The shape PanoramaViewer.tsx maps each dynamic marker to before
merging. -/
def markerToDestination (m : NavigationMarker) : Destination :=
  (m.toRoom, m.position)

/-- allDestinations in PanoramaViewer.tsx: the static entries spread first,
then the dynamic markers for the same label, no deduplication. -/
def allDestinations (label : String) (navS : NavigationMarkersStorage) :
    List Destination :=
  getRoomDestinations label ++ (getMarkersForRoom label navS).map markerToDestination

/-! ## Persistence cell (localStorage + JSON round trip, componentStorage.ts
    / navigationMarkerStorage.ts load and save) -/

/-- Abstract state of one localStorage key.  getItem returning null is
empty; a string JSON.parse throws on is corrupt; a parseable string is
valid and denotes the storage mapping it decodes to.  JSON.stringify of a
storage mapping always parses back to it, so a successful write yields a
valid cell. -/
inductive StoredCell (α : Type) where
  | empty : StoredCell α
  | corrupt : StoredCell α
  | valid : α → StoredCell α
deriving DecidableEq, Repr

/-- loadRoomComponents: try { parse } catch { return {} } — null and
corrupt content both read as the empty mapping, nothing is thrown. -/
def loadRoomComponents : StoredCell RoomComponentsStorage → RoomComponentsStorage
  | .empty => []
  | .corrupt => []
  | .valid s => s

/-- saveRoomComponents: a single atomic setItem inside try/catch.  writeOk
false models a storage medium failure: the exception is caught and the
previously persisted cell stays untouched. -/
def saveRoomComponents (writeOk : Bool) (prior : StoredCell RoomComponentsStorage)
    (s : RoomComponentsStorage) : StoredCell RoomComponentsStorage :=
  if writeOk then .valid s else prior

/-- addComponent at the persistence boundary: load, mutate, one save. -/
def addComponentPersisted (writeOk : Bool) (cell : StoredCell RoomComponentsStorage)
    (c : RoomComponent) : StoredCell RoomComponentsStorage :=
  saveRoomComponents writeOk cell (addComponent c (loadRoomComponents cell))

/-- updateComponent at the persistence boundary: the source only calls
save when some bucket contains the id; otherwise it returns without
writing. -/
def updateComponentPersisted (writeOk : Bool)
    (cell : StoredCell RoomComponentsStorage) (cid : String)
    (u : ComponentUpdates) : StoredCell RoomComponentsStorage :=
  let s := loadRoomComponents cell
  if s.any (fun b => b.2.any (fun c => c.id == cid)) then
    saveRoomComponents writeOk cell (updateComponent cid u s)
  else cell

/-- deleteComponent at the persistence boundary: load, filter, one save. -/
def deleteComponentPersisted (writeOk : Bool)
    (cell : StoredCell RoomComponentsStorage) (cid : String) :
    StoredCell RoomComponentsStorage :=
  saveRoomComponents writeOk cell (deleteComponent cid (loadRoomComponents cell))

/-- loadNavigationMarkers: the same try/catch shape as loadRoomComponents,
over the navigationMarkers key — null and corrupt content both read as
the empty mapping, nothing is thrown. -/
def loadNavigationMarkers :
    StoredCell NavigationMarkersStorage → NavigationMarkersStorage
  | .empty => []
  | .corrupt => []
  | .valid s => s

/-- saveNavigationMarkers: a single atomic setItem inside try/catch; a
rejected write is caught and leaves the previously persisted cell
untouched. -/
def saveNavigationMarkers (writeOk : Bool)
    (prior : StoredCell NavigationMarkersStorage)
    (s : NavigationMarkersStorage) : StoredCell NavigationMarkersStorage :=
  if writeOk then .valid s else prior

/-- addNavigationMarker at the persistence boundary: load, push, one save. -/
def addNavigationMarkerPersisted (writeOk : Bool)
    (cell : StoredCell NavigationMarkersStorage) (m : NavigationMarker) :
    StoredCell NavigationMarkersStorage :=
  saveNavigationMarkers writeOk cell
    (addNavigationMarker m (loadNavigationMarkers cell))

/-- deleteNavigationMarker from navigationMarkerStorage.ts: filter the id
out of every room's bucket and delete buckets that end up empty. -/
def deleteNavigationMarker (mid : String) (s : NavigationMarkersStorage) :
    NavigationMarkersStorage :=
  s.filterMap (fun b =>
    let v := b.2.filter (fun m => m.id != mid)
    if v.isEmpty then none else some (b.1, v))

/-- deleteNavigationMarker at the persistence boundary: load, filter and
prune, one save. -/
def deleteNavigationMarkerPersisted (writeOk : Bool)
    (cell : StoredCell NavigationMarkersStorage) (mid : String) :
    StoredCell NavigationMarkersStorage :=
  saveNavigationMarkers writeOk cell
    (deleteNavigationMarker mid (loadNavigationMarkers cell))

/-! ## API card fetch scheduling and staleness (XRComponentRenderer) -/

/-- The mount effect of an api-typed card: it always issues one immediate
fetch, and creates a repeating setInterval timer (period in milliseconds)
only when refreshInterval is positive. -/
def apiEffectSchedule (refreshInterval : ℕ) : Option ℕ :=
  if refreshInterval > 0 then some (refreshInterval * 1000) else none

/-- Number of fetches issued by time t (milliseconds after mount), assuming
the effect dependencies (annotation type, url, refreshInterval, data) never
change: the single mount fetch plus one firing of the timer per elapsed
period. -/
def fetchesByTime (refreshInterval : ℕ) (t : ℕ) : ℕ :=
  1 + (match apiEffectSchedule refreshInterval with
       | none => 0
       | some periodMs => t / periodMs)

/-- The isStale flag of XRComponentRenderer: false when no successful fetch
has been recorded or when the configured refreshInterval is falsy (0),
otherwise true exactly when now - lastFetched exceeds refreshInterval *
1500 milliseconds, i.e. 1.5 times the interval in seconds.  Timestamps are
epoch milliseconds; the JS truthiness test also treats a lastFetched of
exactly 0 as absent. -/
def isStale (lastFetched : Option ℕ) (refreshInterval : ℕ) (now : ℕ) : Bool :=
  match lastFetched with
  | none => false
  | some lf =>
      if lf = 0 then false
      else if refreshInterval = 0 then false
      else decide (now - lf > refreshInterval * 1500)

/-! ## ZInD metadata parser (utils/zindDataParser.ts) -/

/-- Raw pano metadata as found in zind_data.json. -/
structure PanoData where
  is_inside : Bool
  is_primary : Bool
  is_ceiling_flat : Bool
  label : String
  camera_height : ℚ
  ceiling_height : ℚ
  floor_number : ℚ
  image_path : String
  checksum : String
deriving DecidableEq, Repr

/-- Parsed pano record produced by parseZindData. -/
structure ParsedPano where
  id : String
  label : String
  imagePath : String
  floorNumber : ℚ
  panoId : String
  cameraHeight : ℚ
  ceilingHeight : ℚ
  isPrimary : Bool
  isInside : Bool
deriving DecidableEq, Repr

/-- The JS a || b default on numbers: 0 is the falsy number, so it and only
it is replaced by the default. -/
def jsOrNum (a b : ℚ) : ℚ := if a = 0 then b else a

/-- The JS a || b default on strings: the empty string is falsy. -/
def jsOrString (a b : String) : String := if a = "" then b else a

/-- One record of the push inside parseZindData, field for field. -/
def parsePano (floorId completeRoomId partialRoomId panoId : String)
    (pd : PanoData) : ParsedPano where
  id := floorId ++ "_" ++ completeRoomId ++ "_" ++ partialRoomId ++ "_" ++ panoId
  label := jsOrString pd.label "Unknown Room"
  imagePath := "/360Assets/" ++ pd.image_path
  floorNumber := jsOrNum pd.floor_number 1
  panoId := panoId
  cameraHeight := jsOrNum pd.camera_height (3/2)
  ceilingHeight := jsOrNum pd.ceiling_height (5/2)
  isPrimary := pd.is_primary || false
  isInside := pd.is_inside || true

/-- The merger mapping: floor, complete room, partial room, pano id. -/
abbrev ZindMerger :=
  List (String × List (String × List (String × List (String × PanoData))))

/-- The JS startsWith test, modelled on the character sequence. -/
def jsStartsWith (s pre : String) : Bool := pre.data.isPrefixOf s.data

/-- parseZindData: walk the nested merger mapping in order and keep the
entries whose key starts with the pano marker prefix. -/
def parseZindData (merger : ZindMerger) : List ParsedPano :=
  merger.flatMap (fun fl =>
    fl.2.flatMap (fun cr =>
      cr.2.flatMap (fun pr =>
        pr.2.filterMap (fun pe =>
          if jsStartsWith pe.1 "pano_" then
            some (parsePano fl.1 cr.1 pr.1 pe.1 pe.2)
          else none))))

/-! ## Bucket lemmas -/

/-- Reading back the key just written yields the new value, whatever the
prior contents were. -/
theorem lookupBucket_setBucket_self {α : Type} (s : Buckets α) (k : String) (v : α) :
    lookupBucket (setBucket s k v) k = some v := by
  induction s with
  | nil => simp [setBucket, lookupBucket]
  | cons head rest ih =>
      obtain ⟨k1, w⟩ := head
      by_cases h : k1 = k
      · simp [setBucket, h, lookupBucket]
      · simp [setBucket, h, lookupBucket, ih]

/-- Writing one key leaves every other key's binding unchanged. -/
theorem lookupBucket_setBucket_ne {α : Type} (s : Buckets α) (k k2 : String) (v : α)
    (h : k2 ≠ k) : lookupBucket (setBucket s k v) k2 = lookupBucket s k2 := by
  induction s with
  | nil => simp [setBucket, lookupBucket, Ne.symm h]
  | cons head rest ih =>
      obtain ⟨k1, w⟩ := head
      by_cases h1 : k1 = k
      · subst h1 
        simp [setBucket, lookupBucket, Ne.symm h]
      · simp [setBucket, h1, lookupBucket, ih]

/-- Mapping the values of every bucket commutes with lookup. -/
theorem lookupBucket_mapValues {α β : Type} (g : α → β) (s : Buckets α) (k : String) :
    lookupBucket (s.map (fun b => (b.1, g b.2))) k = (lookupBucket s k).map g := by
  induction s with
  | nil => simp [lookupBucket]
  | cons head rest ih =>
      obtain ⟨k1, v⟩ := head
      by_cases h : k1 = k <;> simp [lookupBucket, h, ih]

/-- Appending to the bucket of the component's own room is visible to an
immediate read of that room. -/
theorem getComponentsForRoom_addComponent_self (s : RoomComponentsStorage)
    (c : RoomComponent) :
    getComponentsForRoom c.roomLabel (addComponent c s) =
      getComponentsForRoom c.roomLabel s ++ [c] := by
  unfold getComponentsForRoom addComponent
  simp [lookupBucket_setBucket_self]

/-- C2: creating an annotation (caller assigns a fresh id and createdAt,
addComponent persists it) makes an immediately following
getComponentsForRoom on the same room label return the prior sequence with
the new entry appended; the entry agrees with the caller-supplied fields
everywhere except the store-assigned id and createdAt, and the store is
synchronous, so no eventual consistency is involved. -/
theorem c2_create_then_list (s : RoomComponentsStorage) (newId : String) (now : ℕ)
    (roomLabel : String) (ty : ComponentType) (pos : Position) (d : ComponentData) :
    getComponentsForRoom roomLabel (createComponent newId now roomLabel ty pos d s) =
      getComponentsForRoom roomLabel s ++
        [{ id := newId, roomLabel := roomLabel, type := ty, position := pos,
           data := d, createdAt := now }] := by
  unfold createComponent
  exact getComponentsForRoom_addComponent_self s
    { id := newId, roomLabel := roomLabel, type := ty, position := pos,
      data := d, createdAt := now }

/-- C5: after deleteComponent, no room's listing contains a component with
the deleted id — the filter runs over every bucket. -/
theorem c5_delete_removes_id (s : RoomComponentsStorage) (cid : String)
    (label : String) (c : RoomComponent)
    (hc : c ∈ getComponentsForRoom label (deleteComponent cid s)) : c.id ≠ cid := by
  unfold getComponentsForRoom deleteComponent at hc
  rw [lookupBucket_mapValues] at hc
  cases hlook : lookupBucket s (normalizeLabel label) with
  | none => rw [hlook] at hc; simp at hc
  | some v =>
      rw [hlook] at hc
      simp only [Option.map_some', Option.getD_some] at hc
      have hmem := List.mem_filter.mp hc
      simpa [bne_iff_ne] using hmem.2

/-- Example component a, in the kitchen. -/
def exComp1 : RoomComponent :=
  { id := "a", roomLabel := "kitchen", type := .infobox, position := (1, 0, 0),
    data := {}, createdAt := 1 }

/-- Example component b, in the kitchen. -/
def exComp2 : RoomComponent :=
  { id := "b", roomLabel := "kitchen", type := .status, position := (0, 2, 0),
    data := {}, createdAt := 2 }

/-- Concrete two-component store used by witnesses. -/
def exStorage : RoomComponentsStorage := [("kitchen", [exComp1, exComp2])]

/-- Witness for C5 at a concrete store: component b survives the deletion of
id a, and the theorem yields that its id differs from a. -/
theorem c5_delete_removes_id_witness :
    exComp2 ∈ getComponentsForRoom "kitchen" (deleteComponent "a" exStorage) ∧
      exComp2.id ≠ "a" :=
  ⟨by decide, c5_delete_removes_id exStorage "a" "kitchen" exComp2 (by decide)⟩

/-- Example dynamic navigation marker whose fromRoom is written with
capital letters, as a user-facing room label would be. -/
def exNavMarker : NavigationMarker :=
  { id := "m1", fromRoom := "Living Room", toRoom := "dining room",
    position := (1, 2, 3), createdAt := 5 }

/-- C3 counterexample: the navigation-link store does not normalize its
bucket key.  A marker stored under the raw label Living Room is invisible
to a lookup under living room although the two labels normalize to the
same string, refuting the claim that every read and write of both stores
keys buckets by the normalized room label. -/
theorem c3_counterexample :
    normalizeLabel "Living Room" = normalizeLabel "living room" ∧
    getMarkersForRoom "living room" (addNavigationMarker exNavMarker []) = [] ∧
    getMarkersForRoom "Living Room" (addNavigationMarker exNavMarker []) =
      [exNavMarker] := by
  refine ⟨by decide, by decide, by decide⟩

/-- C3 amended: the annotation store normalizes the room label at every
read and write, so any two labels with the same normalization address the
same bucket; the navigation-link store keys buckets by the raw fromRoom
string, so a lookup sees a new marker exactly when it uses the identical
raw string. -/
theorem c3_amended :
    (∀ (s : RoomComponentsStorage) (l1 l2 : String),
        normalizeLabel l1 = normalizeLabel l2 →
        getComponentsForRoom l1 s = getComponentsForRoom l2 s) ∧
    (∀ (s : RoomComponentsStorage) (c : RoomComponent) (l : String),
        normalizeLabel l = normalizeLabel c.roomLabel →
        getComponentsForRoom l (addComponent c s) =
          getComponentsForRoom l s ++ [c]) ∧
    (∀ (s : NavigationMarkersStorage) (m : NavigationMarker) (k : String),
        getMarkersForRoom k (addNavigationMarker m s) =
          if k = m.fromRoom then getMarkersForRoom k s ++ [m]
          else getMarkersForRoom k s) := by
  refine ⟨?_, ?_, ?_⟩
  · intro s l1 l2 h
    unfold getComponentsForRoom
    rw [h]
  · intro s c l h
    unfold getComponentsForRoom addComponent
    rw [h]
    simp [lookupBucket_setBucket_self]
  · intro s m k
    by_cases h : k = m.fromRoom
    · subst h
      unfold getMarkersForRoom addNavigationMarker
      simp [lookupBucket_setBucket_self]
    · unfold getMarkersForRoom addNavigationMarker
      simp [h, lookupBucket_setBucket_ne _ _ _ _ h]

/-- Witness for C3 amended: a capitalized, padded label reaches the same
annotation bucket as the component's own lowercase label. -/
theorem c3_amended_witness :
    normalizeLabel " Kitchen " = normalizeLabel exComp1.roomLabel ∧
    getComponentsForRoom " Kitchen " (addComponent exComp1 []) =
      getComponentsForRoom " Kitchen " [] ++ [exComp1] :=
  ⟨by decide, c3_amended.2.1 [] exComp1 " Kitchen " (by decide)⟩

/-- Example dynamic marker duplicating a static destination of the living
room. -/
def exDupMarker : NavigationMarker :=
  { id := "dyn1", fromRoom := "living room", toRoom := "dining room",
    position := (10, 0, 5), createdAt := 7 }

/-- C6: the destination list rendered for a room is the static table's
entries for that room, in declaration order, followed by the dynamic
markers for that room in creation order; a destination present in both
sources appears twice because nothing deduplicates the merge.  The closed
conjuncts instantiate the spec's living-room scenario. -/
theorem c6_destinations_merge :
    (∀ (label : String) (navS : NavigationMarkersStorage),
        allDestinations label navS =
          getRoomDestinations label ++
            (getMarkersForRoom label navS).map markerToDestination) ∧
    getRoomDestinations "living room" =
      [ ("dining room", (-4198/100, -1153/100, 2446/100)),
        ("hallway", (-3115/100, -727/100, -3841/100)) ] ∧
    allDestinations "living room" (addNavigationMarker exDupMarker []) =
      [ ("dining room", (-4198/100, -1153/100, 2446/100)),
        ("hallway", (-3115/100, -727/100, -3841/100)),
        ("dining room", (10, 0, 5)) ] ∧
    ((allDestinations "living room" (addNavigationMarker exDupMarker [])).filter
        (fun dest => dest.1 == "dining room")).length = 2 := by
  refine ⟨fun label navS => rfl, rfl, rfl, rfl⟩

/-! ## Update lemmas -/

/-- A bucket whose findIndex fails has no matching entry for find? either. -/
theorem find?_eq_none_of_any_eq_false {α : Type} {p : α → Bool} (v : List α)
    (h : v.any p = false) : v.find? p = none := by
  induction v with
  | nil => rfl
  | cons a rest ih =>
      simp only [List.any_cons, Bool.or_eq_false_iff] at h
      rw [List.find?_cons_of_neg _ (by simp [h.1]), ih h.2]

/-- A bucket whose find? succeeds has a successful findIndex. -/
theorem any_eq_true_of_find?_eq_some {α : Type} {p : α → Bool} {v : List α}
    {c : α} (h : v.find? p = some c) : v.any p = true := by
  have hmem := List.mem_of_find?_eq_some h
  have hp := List.find?_some h
  exact List.any_eq_true.mpr ⟨c, hmem, hp⟩

/-- Replacing the first id match inside a bucket: the replacement is again
the first match, because the spread keeps the id when the update carries
none. -/
theorem find?_updateBucket (cid : String) (u : ComponentUpdates)
    (hid : u.id = none) (v : List RoomComponent) (c : RoomComponent)
    (h : v.find? (fun x => x.id == cid) = some c) :
    (updateBucket cid u v).find? (fun x => x.id == cid) =
      some (applyUpdates c u) := by
  induction v with
  | nil => simp [List.find?] at h
  | cons a rest ih =>
      by_cases ha : a.id = cid
      · rw [List.find?_cons_of_pos _ (by simp [ha])] at h
        have hac : a = c := by injection h
        subst hac
        unfold updateBucket
        rw [if_pos ha]
        exact List.find?_cons_of_pos _ (by simp [applyUpdates, hid, ha])
      · rw [List.find?_cons_of_neg _ (by simp [ha])] at h
        unfold updateBucket
        rw [if_neg ha]
        rw [List.find?_cons_of_neg _ (by simp [ha])]
        exact ih h

/-- Writing an update through the storage and reading the id back: the
stored record is the spread of the old record with the update. -/
theorem findComponentById_updateComponent (cid : String) (u : ComponentUpdates)
    (hid : u.id = none) :
    ∀ (s : RoomComponentsStorage) (c : RoomComponent),
      findComponentById cid s = some c →
      findComponentById cid (updateComponent cid u s) =
        some (applyUpdates c u) := by
  intro s
  induction s with
  | nil => intro c h; simp [findComponentById] at h
  | cons head rest ih =>
      intro c hfind
      obtain ⟨k, v⟩ := head
      cases hv : v.find? (fun x => x.id == cid) with
      | some c0 =>
          have hany := any_eq_true_of_find?_eq_some hv
          unfold findComponentById at hfind
          rw [hv] at hfind
          have hc0 : c0 = c := by injection hfind
          subst hc0
          unfold updateComponent
          rw [if_pos hany]
          unfold findComponentById
          rw [find?_updateBucket cid u hid v c0 hv]
      | none =>
          have hany : v.any (fun x => x.id == cid) = false := by
            cases hany2 : v.any (fun x => x.id == cid) with
            | false => rfl
            | true =>
                obtain ⟨x, hxmem, hx⟩ := List.any_eq_true.mp hany2
                have := List.find?_eq_none.mp hv x hxmem
                simp [hx] at this
          unfold findComponentById at hfind
          rw [hv] at hfind
          unfold updateComponent
          rw [if_neg (by simp [hany])]
          unfold findComponentById
          rw [hv]
          exact ih c hfind

/-- C4: updating a stored annotation by id through a partial update that
carries neither id nor createdAt (the only shape the editor produces),
then looking the id up again, yields an annotation whose updated fields
equal the supplied values and whose every other field, id and createdAt
included, is unchanged. -/
theorem c4_update_preserves (s : RoomComponentsStorage) (cid : String)
    (u : ComponentUpdates) (c : RoomComponent)
    (hid : u.id = none) (hca : u.createdAt = none)
    (hfind : findComponentById cid s = some c) :
    findComponentById cid (updateComponent cid u s) = some (applyUpdates c u) ∧
    (applyUpdates c u).id = c.id ∧
    (applyUpdates c u).createdAt = c.createdAt ∧
    (∀ p, u.position = some p → (applyUpdates c u).position = p) ∧
    (∀ d, u.data = some d → (applyUpdates c u).data = d) ∧
    (∀ t, u.type = some t → (applyUpdates c u).type = t) ∧
    (∀ rl, u.roomLabel = some rl → (applyUpdates c u).roomLabel = rl) ∧
    (u.position = none → (applyUpdates c u).position = c.position) ∧
    (u.data = none → (applyUpdates c u).data = c.data) ∧
    (u.type = none → (applyUpdates c u).type = c.type) ∧
    (u.roomLabel = none → (applyUpdates c u).roomLabel = c.roomLabel) := by
  refine ⟨findComponentById_updateComponent cid u hid s c hfind, ?_, ?_, ?_, ?_, ?_, ?_, ?_, ?_, ?_, ?_⟩
  · simp [applyUpdates, hid]
  · simp [applyUpdates, hca]
  · intro p hp; simp [applyUpdates, hp]
  · intro d hd; simp [applyUpdates, hd]
  · intro t ht; simp [applyUpdates, ht]
  · intro rl hrl; simp [applyUpdates, hrl]
  · intro hp; simp [applyUpdates, hp]
  · intro hd; simp [applyUpdates, hd]
  · intro ht; simp [applyUpdates, ht]
  · intro hrl; simp [applyUpdates, hrl]

/-- The single-field update used by the C4 witness: a new position only. -/
def exPositionUpdate : ComponentUpdates := { position := some (4, 5, 6) }

/-- Witness for C4 at the concrete two-component store: updating component
a's position leaves its id, createdAt and data intact. -/
theorem c4_update_preserves_witness :
    exPositionUpdate.id = none ∧ exPositionUpdate.createdAt = none ∧
    findComponentById "a" exStorage = some exComp1 ∧
    (findComponentById "a" (updateComponent "a" exPositionUpdate exStorage) =
        some (applyUpdates exComp1 exPositionUpdate) ∧
      (applyUpdates exComp1 exPositionUpdate).id = exComp1.id ∧
      (applyUpdates exComp1 exPositionUpdate).createdAt = exComp1.createdAt ∧
      (∀ p, exPositionUpdate.position = some p →
          (applyUpdates exComp1 exPositionUpdate).position = p) ∧
      (∀ d, exPositionUpdate.data = some d →
          (applyUpdates exComp1 exPositionUpdate).data = d) ∧
      (∀ t, exPositionUpdate.type = some t →
          (applyUpdates exComp1 exPositionUpdate).type = t) ∧
      (∀ rl, exPositionUpdate.roomLabel = some rl →
          (applyUpdates exComp1 exPositionUpdate).roomLabel = rl) ∧
      (exPositionUpdate.position = none →
          (applyUpdates exComp1 exPositionUpdate).position = exComp1.position) ∧
      (exPositionUpdate.data = none →
          (applyUpdates exComp1 exPositionUpdate).data = exComp1.data) ∧
      (exPositionUpdate.type = none →
          (applyUpdates exComp1 exPositionUpdate).type = exComp1.type) ∧
      (exPositionUpdate.roomLabel = none →
          (applyUpdates exComp1 exPositionUpdate).roomLabel = exComp1.roomLabel)) :=
  ⟨by decide, by decide, by decide,
    c4_update_preserves exStorage "a" exPositionUpdate exComp1
      (by decide) (by decide) (by decide)⟩

/-! ## Persistence fail-soft lemmas -/

/-- An update whose id appears in no bucket leaves the storage unchanged. -/
theorem updateComponent_eq_of_not_found (cid : String) (u : ComponentUpdates)
    (s : RoomComponentsStorage)
    (h : s.any (fun b => b.2.any (fun c => c.id == cid)) = false) :
    updateComponent cid u s = s := by
  induction s with
  | nil => rfl
  | cons head rest ih =>
      obtain ⟨k, v⟩ := head
      simp only [List.any_cons, Bool.or_eq_false_iff] at h
      unfold updateComponent
      rw [if_neg (by simp [h.1]), ih h.2]

/-- C7: reads are fail-soft and writes are all-or-nothing, for both the
annotation store and the navigation-link store.  A missing or corrupt
persisted value loads as the empty mapping (the try/catch returns the
default instead of throwing), and every mutation of either store performs
at most one atomic save: when the storage medium rejects the write the
previously persisted state is still read back in full, and when it
accepts, the full new state is; no partial write is ever observable. -/
theorem c7_failsoft_persistence :
    (loadRoomComponents .corrupt = [] ∧ loadRoomComponents .empty = []) ∧
    (∀ (ok : Bool) (cell : StoredCell RoomComponentsStorage) (c : RoomComponent),
        loadRoomComponents (addComponentPersisted ok cell c) =
          if ok then addComponent c (loadRoomComponents cell)
          else loadRoomComponents cell) ∧
    (∀ (ok : Bool) (cell : StoredCell RoomComponentsStorage) (cid : String),
        loadRoomComponents (deleteComponentPersisted ok cell cid) =
          if ok then deleteComponent cid (loadRoomComponents cell)
          else loadRoomComponents cell) ∧
    (∀ (ok : Bool) (cell : StoredCell RoomComponentsStorage) (cid : String)
        (u : ComponentUpdates),
        loadRoomComponents (updateComponentPersisted ok cell cid u) =
          if ok then updateComponent cid u (loadRoomComponents cell)
          else loadRoomComponents cell) ∧
    (loadNavigationMarkers .corrupt = [] ∧ loadNavigationMarkers .empty = []) ∧
    (∀ (ok : Bool) (cell : StoredCell NavigationMarkersStorage)
        (m : NavigationMarker),
        loadNavigationMarkers (addNavigationMarkerPersisted ok cell m) =
          if ok then addNavigationMarker m (loadNavigationMarkers cell)
          else loadNavigationMarkers cell) ∧
    (∀ (ok : Bool) (cell : StoredCell NavigationMarkersStorage) (mid : String),
        loadNavigationMarkers (deleteNavigationMarkerPersisted ok cell mid) =
          if ok then deleteNavigationMarker mid (loadNavigationMarkers cell)
          else loadNavigationMarkers cell) := by
  refine ⟨⟨rfl, rfl⟩, ?_, ?_, ?_, ⟨rfl, rfl⟩, ?_, ?_⟩
  · intro ok cell c
    cases ok <;> simp [addComponentPersisted, saveRoomComponents, loadRoomComponents]
  · intro ok cell cid
    cases ok <;> simp [deleteComponentPersisted, saveRoomComponents, loadRoomComponents]
  · intro ok cell cid u
    unfold updateComponentPersisted
    cases hfound : (loadRoomComponents cell).any (fun b => b.2.any (fun c => c.id == cid)) with
    | true =>
        rw [if_pos hfound]
        cases ok <;> simp [saveRoomComponents, loadRoomComponents]
    | false =>
        rw [if_neg (by simp [hfound])]
        cases ok <;> simp [updateComponent_eq_of_not_found cid u _ hfound]
  · intro ok cell m
    cases ok <;>
      simp [addNavigationMarkerPersisted, saveNavigationMarkers, loadNavigationMarkers]
  · intro ok cell mid
    cases ok <;>
      simp [deleteNavigationMarkerPersisted, saveNavigationMarkers, loadNavigationMarkers]

/-- C8: with refreshInterval 0 the mount effect issues the single mount
fetch and creates no repeating timer, so the number of fetches issued is
one no matter how much time elapses (the effect dependencies being
unchanged). -/
theorem c8_zero_interval_single_fetch :
    apiEffectSchedule 0 = none ∧ ∀ t : ℕ, fetchesByTime 0 t = 1 := by
  refine ⟨rfl, ?_⟩
  intro t
  simp [fetchesByTime, apiEffectSchedule]

/-- C9: the stale flag is set exactly when a successful fetch has been
recorded, the configured interval is positive, and the recorded data's
age exceeds 1.5 times the interval in seconds (interval * 1500
milliseconds); with no fetch recorded, or with interval 0, the flag is
never set.  The positivity hypothesis on lastFetched reflects that a
successful fetch records a positive epoch timestamp. -/
theorem c9_stale_characterization (lf refreshInterval now : ℕ) (hlf : 0 < lf) :
    (isStale (some lf) refreshInterval now = true ↔
      0 < refreshInterval ∧ refreshInterval * 1500 < now - lf) ∧
    isStale none refreshInterval now = false ∧
    isStale (some lf) 0 now = false := by
  have hlf0 : lf ≠ 0 := Nat.pos_iff_ne_zero.mp hlf
  refine ⟨?_, rfl, ?_⟩
  · show (if lf = 0 then false
        else if refreshInterval = 0 then false
        else decide (now - lf > refreshInterval * 1500)) = true ↔ _
    rw [if_neg hlf0]
    by_cases h : refreshInterval = 0
    · subst h; simp
    · simp [h, Nat.pos_of_ne_zero h]
  · show (if lf = 0 then false
        else if (0 : ℕ) = 0 then false
        else decide (now - lf > 0 * 1500)) = false
    rw [if_neg hlf0]
    simp

/-- Witness for C9: a fetch recorded at 1000 ms with a 10-second interval
is stale at 17000 ms (age 16000 ms, threshold 15000 ms). -/
theorem c9_stale_characterization_witness :
    0 < 1000 ∧
    ((isStale (some 1000) 10 17000 = true ↔
        0 < 10 ∧ 10 * 1500 < 17000 - 1000) ∧
      isStale none 10 17000 = false ∧
      isStale (some 1000) 0 17000 = false) :=
  ⟨by decide, c9_stale_characterization 1000 10 17000 (by decide)⟩

/-- C10: every panorama parseZindData returns has isInside true, because
the missing-field default is applied with a boolean or; a floor_number of
0 becomes 1, a camera_height of 0 becomes 1.5, a ceiling_height of 0
becomes 2.5, and only is_primary is passed through unchanged and can
survive as false. -/
theorem c10_parse_defaults :
    (∀ (d : ZindMerger) (p : ParsedPano), p ∈ parseZindData d → p.isInside = true) ∧
    (∀ (fl cr pr pid : String) (pd : PanoData),
        (parsePano fl cr pr pid pd).isInside = true ∧
        (parsePano fl cr pr pid pd).isPrimary = pd.is_primary ∧
        (pd.floor_number = 0 → (parsePano fl cr pr pid pd).floorNumber = 1) ∧
        (pd.camera_height = 0 → (parsePano fl cr pr pid pd).cameraHeight = 3/2) ∧
        (pd.ceiling_height = 0 → (parsePano fl cr pr pid pd).ceilingHeight = 5/2)) := by
  constructor
  · intro d p hp
    simp only [parseZindData, List.mem_flatMap, List.mem_filterMap] at hp
    obtain ⟨fl, _, cr, _, pr, _, pe, _, hpe⟩ := hp
    by_cases hs : jsStartsWith pe.1 "pano_"
    · rw [if_pos hs] at hpe
      have hp2 : parsePano fl.1 cr.1 pr.1 pe.1 pe.2 = p := by injection hpe
      subst hp2
      simp [parsePano]
    · rw [if_neg hs] at hpe
      exact absurd hpe (by simp)
  · intro fl cr pr pid pd
    refine ⟨by simp [parsePano], by simp [parsePano], ?_, ?_, ?_⟩
    · intro h; simp [parsePano, jsOrNum, h]
    · intro h; simp [parsePano, jsOrNum, h]
    · intro h; simp [parsePano, jsOrNum, h]

/-- Raw metadata record whose is_inside is explicitly false and whose
floor_number is 0; heights are nonzero so the parsed record stays in the
kernel-evaluable fragment. -/
def exPanoData : PanoData :=
  { is_inside := false, is_primary := false, is_ceiling_flat := true,
    label := "living room", camera_height := 2, ceiling_height := 3,
    floor_number := 0, image_path := "pano.jpg", checksum := "x" }

/-- A one-record merger mapping holding the example metadata. -/
def exZind : ZindMerger :=
  [("floor_01", [("complete_room_01", [("partial_room_01",
    [("pano_001", exPanoData)])])])]

/-- Witness for C10: the parsed example record is returned by
parseZindData, its isInside is true although the source said false, and
its floor_number 0 was replaced by the default 1. -/
theorem c10_parse_defaults_witness :
    (parsePano "floor_01" "complete_room_01" "partial_room_01" "pano_001"
        exPanoData ∈ parseZindData exZind) ∧
    (parsePano "floor_01" "complete_room_01" "partial_room_01" "pano_001"
        exPanoData).isInside = true ∧
    exPanoData.is_inside = false ∧
    exPanoData.floor_number = 0 ∧
    (parsePano "floor_01" "complete_room_01" "partial_room_01" "pano_001"
        exPanoData).floorNumber = 1 :=
  ⟨by decide,
    c10_parse_defaults.1 exZind _ (by decide),
    by decide, by decide,
    (c10_parse_defaults.2 "floor_01" "complete_room_01" "partial_room_01"
        "pano_001" exPanoData).2.2.1 (by decide)⟩

/-! ## Render normalization correctness -/

/-- C1: for every stored position with nonzero magnitude and every render
radius r greater than 0, the render-time normalization returns the stored
vector scaled by r over its magnitude: the result has magnitude exactly r
and is a positive scalar multiple of the stored vector, so it points in
the same direction.  The stored vector is only read; the result is a
fresh value, so rendering never mutates stored coordinates. -/
theorem c1_normalize_to_render_radius (v : Vec3) (r : ℝ)
    (hv : v ≠ zero3) (hr : 0 < r) :
    norm3 (normalizeToRenderRadius v r) = r ∧
    normalizeToRenderRadius v r = smul3 (r / norm3 v) v ∧
    0 < r / norm3 v := by
  have hS : 0 < v.x * v.x + v.y * v.y + v.z * v.z := by
    have hnonneg : (0:ℝ) ≤ v.x * v.x + v.y * v.y + v.z * v.z :=
      add_nonneg (add_nonneg (mul_self_nonneg _) (mul_self_nonneg _))
        (mul_self_nonneg _)
    rcases lt_or_eq_of_le hnonneg with h | h
    · exact h
    · exfalso
      have hx := mul_self_nonneg v.x
      have hy := mul_self_nonneg v.y
      have hz := mul_self_nonneg v.z
      have hx0 : v.x = 0 := by nlinarith
      have hy0 : v.y = 0 := by nlinarith
      have hz0 : v.z = 0 := by nlinarith
      apply hv
      cases v
      simp only [zero3, Vec3.mk.injEq]
      exact ⟨hx0, hy0, hz0⟩
  have hL : 0 < norm3 v := Real.sqrt_pos.mpr hS
  have hLne : norm3 v ≠ 0 := ne_of_gt hL
  have hL2 : norm3 v * norm3 v = v.x * v.x + v.y * v.y + v.z * v.z :=
    Real.mul_self_sqrt hS.le
  refine ⟨?_, ?_, div_pos hr hL⟩
  · show Real.sqrt
        ((v.x / norm3 v * r) * (v.x / norm3 v * r) +
          (v.y / norm3 v * r) * (v.y / norm3 v * r) +
          (v.z / norm3 v * r) * (v.z / norm3 v * r)) = r
    have hsum : (v.x / norm3 v * r) * (v.x / norm3 v * r) +
        (v.y / norm3 v * r) * (v.y / norm3 v * r) +
        (v.z / norm3 v * r) * (v.z / norm3 v * r) =
          (v.x * v.x + v.y * v.y + v.z * v.z) * (r * r) /
            (norm3 v * norm3 v) := by
      field_simp
      ring
    have key : (v.x / norm3 v * r) * (v.x / norm3 v * r) +
        (v.y / norm3 v * r) * (v.y / norm3 v * r) +
        (v.z / norm3 v * r) * (v.z / norm3 v * r) = r * r := by
      rw [hsum, hL2]
      exact mul_div_cancel_left₀ _ (ne_of_gt hS)
    rw [key, Real.sqrt_mul_self hr.le]
  · show Vec3.mk (v.x / norm3 v * r) (v.y / norm3 v * r) (v.z / norm3 v * r) =
        smul3 (r / norm3 v) v
    simp only [smul3, Vec3.mk.injEq]
    refine ⟨by ring, by ring, by ring⟩

/-- Witness for C1 at the concrete vector (3, 4, 0) and radius 5. -/
theorem c1_normalize_to_render_radius_witness :
    ((⟨3, 4, 0⟩ : Vec3) ≠ zero3 ∧ (0:ℝ) < 5) ∧
    (norm3 (normalizeToRenderRadius ⟨3, 4, 0⟩ 5) = 5 ∧
      normalizeToRenderRadius ⟨3, 4, 0⟩ 5 =
        smul3 (5 / norm3 ⟨3, 4, 0⟩) ⟨3, 4, 0⟩ ∧
      0 < 5 / norm3 ⟨3, 4, 0⟩) := by
  have hv : (⟨3, 4, 0⟩ : Vec3) ≠ zero3 := by
    intro h
    have hx := congrArg Vec3.x h
    norm_num [zero3] at hx
  have hr : (0:ℝ) < 5 := by norm_num
  exact ⟨⟨hv, hr⟩, c1_normalize_to_render_radius ⟨3, 4, 0⟩ 5 hv hr⟩
